import Mathlib

/-!
Shallow embedding of `schemaregistry/rules/encryption/encrypt_executor.go`
(the field-encryption rule executor of confluent-kafka-go): the data model,
the ciphertext version framing, DEK expiry arithmetic, the KEK/DEK lifecycle
functions `getOrCreateKek` / `getOrCreateDek`, and the field `Transform`.

Go bytes are modelled as `Nat` (meaningful values are `< 256`); Go strings
used as identifiers (kek names, kms types, subjects, algorithm names) are
Lean `String`s; Go `[]byte` is `List Nat`.  Machine integers (`int`,
`int64`) are modelled as `Int`; Go's truncating integer division is
`Int.tdiv`, and the `uint32(...)` conversion is `% 2^32`.

External collaborators that are not part of this repository's source (the
DEK registry client of the `deks` package, the tink AEAD primitives, the
KMS drivers, Go's base64 codec) are modelled as explicit environments or
concrete Lean functions, each marked in its doc comment.  Go's `(value,
error)` pairs are modelled as such pairs (both components can be observed
by callers, as the source sometimes ignores the error); a Go runtime panic
(nil dereference, out-of-range index) is an explicit `panics` outcome.
-/

namespace Encryption

/-- A byte sequence (Go `[]byte`); meaningful entries are `< 256`. -/
abbrev Bytes := List Nat

/-- Rule mode (`schemaregistry.RuleMode`): the source's `Transform` only
distinguishes `Write`, `Read` and everything else (its `default` branch). -/
inductive RuleMode where
  | Write
  | Read
  | Other
deriving DecidableEq, Repr

/-- Field type (`serde.FieldType`): `toBytes`/`toObject` only distinguish
`TypeBytes`, `TypeString` and everything else (their `default` branches). -/
inductive FieldType where
  | TypeBytes
  | TypeString
  | TypeOther
deriving DecidableEq, Repr

/-- A non-nil field value (`interface{}`), carrying its dynamic type:
a `[]byte`, a `string` (as raw bytes), or a value of any other type. -/
inductive FieldValue where
  | bytes (b : Bytes)
  | str (s : Bytes)
  | other
deriving DecidableEq, Repr

/-- A Go `error` as this file needs it: either a `rest.Error` carrying an
HTTP-like status code, or any other error (identified by its message). -/
inductive GoError where
  | rest (code : Int)
  | msg (s : String)
deriving DecidableEq, Repr

/-- Modelled from the spec: a KEK record of the registry client
(`deks.Kek`): name, KMS type, KMS key ID and the shared flag. -/
structure Kek where
  name : String
  kmsType : String
  kmsKeyID : String
  shared : Bool
deriving DecidableEq, Repr

/-- Modelled from the spec: a DEK record of the registry client
(`deks.Dek`): version, timestamp (ms), the lazily-set decrypted
key-material cache, and the encrypted (wrapped) key material. -/
structure Dek where
  version : Int
  ts : Int
  keyMaterial : Option Bytes
  encryptedKeyMaterial : Option Bytes
deriving DecidableEq, Repr

/-- `deks.DekID`: identifies a DEK record. -/
structure DekID where
  kekName : String
  subject : String
  version : Int
  algorithm : String
  deleted : Bool
deriving DecidableEq, Repr

/-- The tink key templates `getCryptor` can select (`aead.AES128GCMKeyTemplate`,
`aead.AES256GCMKeyTemplate`, `daead.AESSIVKeyTemplate`); an unsupported
algorithm leaves the template pointer nil (`Option.none`). -/
inductive KeyTemplate where
  | aes128Gcm
  | aes256Gcm
  | aesSiv
deriving DecidableEq, Repr

/-- `Cryptor`: the algorithm identifier and the (possibly nil) key template. -/
structure Cryptor where
  dekFormat : String
  keyTemplate : Option KeyTemplate
deriving DecidableEq, Repr

/-- `Aes128Gcm` constant. -/
def Aes128Gcm : String := "AES128_GCM"

/-- `Aes256Gcm` constant. -/
def Aes256Gcm : String := "AES256_GCM"

/-- `Aes256Siv` constant. -/
def Aes256Siv : String := "AES256_SIV"

/-- `MillisInDay = 24 * 60 * 60 * 1000`. -/
def MillisInDay : Int := 24 * 60 * 60 * 1000

/-- Modelled from the spec: `serde.MagicByteV0`, the 1-byte format marker
of the version frame. -/
def magicByteV0 : Nat := 0

/-- `getCryptor`: resolve the algorithm parameter (default `AES256_GCM`
when absent) to a `Cryptor`; the three supported identifiers select a key
template, anything else leaves it nil. -/
def getCryptor (algorithm : Option String) : Cryptor :=
  let alg := algorithm.getD Aes256Gcm
  let keyTemplate : Option KeyTemplate :=
    if alg = Aes128Gcm then some .aes128Gcm
    else if alg = Aes256Gcm then some .aes256Gcm
    else if alg = Aes256Siv then some .aesSiv
    else none
  { dekFormat := alg, keyTemplate := keyTemplate }

/-- `toBytes`: convert a field value to bytes.  The source switches on the
field type and type-asserts the value; the `default` branch returns nil.
The embedding is restricted to type-consistent values (a mismatched Go
type assertion would panic; no claim exercises that case). -/
def toBytes : FieldType → FieldValue → Option Bytes
  | .TypeBytes, .bytes b => some b
  | .TypeString, .str s => some s
  | _, _ => none

/-- `toObject`: convert bytes back to a value of the field's type
(`default` branch returns nil, modelled as `none`). -/
def toObject : FieldType → Bytes → Option FieldValue
  | .TypeBytes, b => some (.bytes b)
  | .TypeString, b => some (.str b)
  | _, _ => none

/-- `isExpired`: a DEK is expired iff the rule mode is not `Read`, the
configured expiry days are positive, the DEK is present, and
`(now - dek.Ts) / MillisInDay >= int64(dekExpiryDays)` with Go's
truncating `int64` division (`Int.tdiv`). -/
def isExpired (mode : RuleMode) (dekExpiryDays now : Int) (dek : Option Dek) : Bool :=
  decide (mode ≠ RuleMode.Read) && decide (dekExpiryDays > 0) &&
    (match dek with
     | some d => decide ((now - d.ts).tdiv MillisInDay ≥ dekExpiryDays)
     | none => false)

/-- `isDekRotated`: rotation is enabled iff `DekExpiryDays > 0`. -/
def isDekRotated (dekExpiryDays : Int) : Bool :=
  decide (dekExpiryDays > 0)

/-- `binary.BigEndian.PutUint32`: the 4 big-endian bytes of `v % 2^32`. -/
def putUint32BE (v : Nat) : Bytes :=
  [v / 2 ^ 24 % 256, v / 2 ^ 16 % 256, v / 2 ^ 8 % 256, v % 256]

/-- `binary.BigEndian.Uint32` on (at least) 4 bytes. -/
def uint32BE (b0 b1 b2 b3 : Nat) : Nat :=
  b0 * 2 ^ 24 + b1 * 2 ^ 16 + b2 * 2 ^ 8 + b3

/-- `prefixVersion`: the version frame written on the rotated write path:
the format marker byte, then `uint32(version)` big-endian, then the raw
ciphertext.  (`bytes.Buffer` writes cannot fail, so the Go error path is
dead.)  The `uint32(version)` conversion of the Go `int` wraps mod `2^32`. -/
def prefixVersion (version : Int) (ciphertext : Bytes) : Bytes :=
  magicByteV0 :: putUint32BE ((version % (2 ^ 32 : Int)).toNat) ++ ciphertext

/-- Outcome of `extractVersion`, which can return a version, return the
"unknown magic byte" error, or panic on a short input (`ciphertext[0]` on
an empty slice, `ciphertext[1:5]` when fewer than 5 bytes are available). -/
inductive ExtractResult where
  | ok (v : Nat)
  | err
  | panics
deriving DecidableEq, Repr

/-- `extractVersion`: check `ciphertext[0]` against the format marker
(empty input panics), then read the big-endian version from
`ciphertext[1:5]` (fewer than 5 bytes panics). -/
def extractVersion (ciphertext : Bytes) : ExtractResult :=
  match ciphertext with
  | [] => .panics
  | b :: rest =>
    if b ≠ magicByteV0 then .err
    else
      match rest with
      | b1 :: b2 :: b3 :: b4 :: _ => .ok (uint32BE b1 b2 b3 b4)
      | _ => .panics

/-- The arithmetic characterization of the source's status-code test
`strings.HasPrefix(strconv.Itoa(code), "404")` (resp. `"409"`): the decimal
form of `code` starts with the decimal form of `p` iff
`p * 10^k ≤ code < (p+1) * 10^k` for some `k` (negative codes never match,
as `strconv.Itoa` puts a minus sign first; `k < 20` covers every `int64`). -/
def statusHasPrefix (code : Int) (p : Int) : Bool :=
  decide (∃ k : Fin 20, p * 10 ^ (k : Nat) ≤ code ∧ code < (p + 1) * 10 ^ (k : Nat))

example : statusHasPrefix 404 404 = true := by decide
example : statusHasPrefix 40403 404 = true := by decide
example : statusHasPrefix 409 409 = true := by decide
example : statusHasPrefix 500 409 = false := by decide
example : statusHasPrefix 500 404 = false := by decide
example : statusHasPrefix 409 404 = false := by decide

/-- Modelled from the spec (Go's `encoding/base64` standard alphabet):
the character (as a byte) for a 6-bit value. -/
def b64Char (n : Nat) : Nat :=
  if n < 26 then 65 + n
  else if n < 52 then 97 + (n - 26)
  else if n < 62 then 48 + (n - 52)
  else if n = 62 then 43
  else 47

/-- Modelled from the spec: the inverse alphabet lookup of the base64
decoder; `none` for a byte outside the standard alphabet. -/
def b64Value (c : Nat) : Option Nat :=
  if 65 ≤ c ∧ c ≤ 90 then some (c - 65)
  else if 97 ≤ c ∧ c ≤ 122 then some (c - 97 + 26)
  else if 48 ≤ c ∧ c ≤ 57 then some (c - 48 + 52)
  else if c = 43 then some 62
  else if c = 47 then some 63
  else none

/-- Modelled from the spec: `base64.StdEncoding.EncodeToString` over byte
lists, with `=` padding (byte 61). -/
def base64Encode : Bytes → Bytes
  | [] => []
  | [a] => [b64Char (a / 4), b64Char (a % 4 * 16), 61, 61]
  | [a, b] => [b64Char (a / 4), b64Char (a % 4 * 16 + b / 16), b64Char (b % 16 * 4), 61]
  | a :: b :: c :: rest =>
    b64Char (a / 4) :: b64Char (a % 4 * 16 + b / 16) ::
      b64Char (b % 16 * 4 + c / 64) :: b64Char (c % 64) :: base64Encode rest

/-- Modelled from the spec: `base64.StdEncoding.DecodeString` over byte
lists; `none` is the decode error (which the read path surfaces). -/
def base64Decode : Bytes → Option Bytes
  | [] => some []
  | c1 :: c2 :: c3 :: c4 :: rest =>
    match b64Value c1, b64Value c2 with
    | some n1, some n2 =>
      if c3 = 61 then
        if c4 = 61 ∧ rest = [] then some [n1 * 4 + n2 / 16] else none
      else
        match b64Value c3 with
        | some n3 =>
          if c4 = 61 then
            if rest = [] then some [n1 * 4 + n2 / 16, n2 % 16 * 16 + n3 / 4] else none
          else
            match b64Value c4 with
            | some n4 =>
              match base64Decode rest with
              | some tail =>
                some ((n1 * 4 + n2 / 16) :: (n2 % 16 * 16 + n3 / 4) :: (n3 % 4 * 64 + n4) :: tail)
              | none => none
            | none => none
        | none => none
    | _, _ => none
  | _ => none

theorem b64Value_b64Char : ∀ n < 64, b64Value (b64Char n) = some n := by decide

theorem b64Char_ne_pad (n : Nat) : b64Char n ≠ 61 := by
  unfold b64Char
  split <;> [omega; skip]
  split <;> [omega; skip]
  split <;> [omega; skip]
  split <;> omega

/-- Decoding inverts encoding on genuine byte lists. -/
theorem base64Decode_base64Encode :
    ∀ bs : Bytes, (∀ x ∈ bs, x < 256) → base64Decode (base64Encode bs) = some bs
  | [], _ => by simp [base64Encode, base64Decode]
  | [a], h => by
    have ha : a < 256 := h a (by simp)
    have h1 : b64Value (b64Char (a / 4)) = some (a / 4) := b64Value_b64Char _ (by omega)
    have h2 : b64Value (b64Char (a % 4 * 16)) = some (a % 4 * 16) := b64Value_b64Char _ (by omega)
    simp only [base64Encode, base64Decode, h1, h2, and_self, if_true,
      Option.some.injEq, List.cons.injEq, and_true]
    omega
  | [a, b], h => by
    have ha : a < 256 := h a (by simp)
    have hb : b < 256 := h b (by simp)
    have h1 : b64Value (b64Char (a / 4)) = some (a / 4) := b64Value_b64Char _ (by omega)
    have h2 : b64Value (b64Char (a % 4 * 16 + b / 16)) = some (a % 4 * 16 + b / 16) :=
      b64Value_b64Char _ (by omega)
    have h3 : b64Value (b64Char (b % 16 * 4)) = some (b % 16 * 4) := b64Value_b64Char _ (by omega)
    simp only [base64Encode, base64Decode, h1, h2, h3, b64Char_ne_pad, and_self, if_true,
      if_false, Option.some.injEq, List.cons.injEq, and_true]
    omega
  | a :: b :: c :: rest, h => by
    have ha : a < 256 := h a (by simp)
    have hb : b < 256 := h b (by simp)
    have hc : c < 256 := h c (by simp)
    have ih := base64Decode_base64Encode rest (fun x hx => h x (by simp [hx]))
    have h1 : b64Value (b64Char (a / 4)) = some (a / 4) := b64Value_b64Char _ (by omega)
    have h2 : b64Value (b64Char (a % 4 * 16 + b / 16)) = some (a % 4 * 16 + b / 16) :=
      b64Value_b64Char _ (by omega)
    have h3 : b64Value (b64Char (b % 16 * 4 + c / 64)) = some (b % 16 * 4 + c / 64) :=
      b64Value_b64Char _ (by omega)
    have h4 : b64Value (b64Char (c % 64)) = some (c % 64) := b64Value_b64Char _ (by omega)
    simp only [base64Encode, base64Decode, h1, h2, h3, h4, b64Char_ne_pad, ih, and_self,
      if_true, if_false, Option.some.injEq, List.cons.injEq, and_true]
    omega

/-- One remote call of the lifecycle manager: a registry round trip
(KEK/DEK lookup or registration) or a KMS client resolution (`getAead`).
Local accessors of the client (key-material get/set) make no round trip
and are not recorded. -/
inductive CallEvent where
  | getKek (name : String) (deleted : Bool)
  | registerKek (name : String) (kmsType : String) (kmsKeyID : String) (shared : Bool)
  | getDek (kekName : String) (subject : String) (version : Int) (algorithm : String)
      (deleted : Bool)
  | registerDek (kekName : String) (subject : String) (version : Int) (algorithm : String)
      (encryptedDek : Option Bytes)
  | kmsGetAead (url : String)
deriving DecidableEq, Repr

/-- Modelled from the spec: the environment a transform runs against — the
registry client's responses (indexed by how many calls of that kind were
made before, so a refetch can see a different answer than the first fetch),
the KMS-held KEK AEAD, tink's key generation and the tink AEAD/DAEAD
primitives keyed by the algorithm identifier.  The AEAD functions are
modelled as (determinized) total functions; decryption returns `none` on
authentication failure. -/
structure Env where
  getKekResp : Nat → Except GoError Kek
  registerKekResp : Nat → Except GoError Kek
  getDekResp : Nat → Except GoError Dek
  registerDekResp : Nat → Except GoError Dek
  kekAeadOk : Bool
  kekEnc : Bytes → Bytes
  kekDec : Bytes → Option Bytes
  newKeyOk : Bool
  newKey : Bytes
  primitiveOk : Bytes → Bool
  aeadEnc : String → Bytes → Bytes → Bytes → Bytes
  aeadDec : String → Bytes → Bytes → Bytes → Option Bytes

/-- The running state of one transform invocation: the environment, the
per-kind call counters, and the trace of remote calls made so far. -/
structure St where
  env : Env
  nGetKek : Nat := 0
  nRegKek : Nat := 0
  nGetDek : Nat := 0
  nRegDek : Nat := 0
  trace : List CallEvent := []

/-- Initial state over an environment. -/
def St.init (env : Env) : St := { env := env }

/-- `Client.GetKek`: one registry lookup call. -/
def callGetKek (st : St) (name : String) (deleted : Bool) : Except GoError Kek × St :=
  (st.env.getKekResp st.nGetKek,
   { st with nGetKek := st.nGetKek + 1, trace := st.trace ++ [.getKek name deleted] })

/-- `Client.RegisterKek`: one registry registration call. -/
def callRegisterKek (st : St) (name kmsType kmsKeyID : String) (shared : Bool) :
    Except GoError Kek × St :=
  (st.env.registerKekResp st.nRegKek,
   { st with nRegKek := st.nRegKek + 1,
             trace := st.trace ++ [.registerKek name kmsType kmsKeyID shared] })

/-- `Client.GetDek` / `Client.GetDekVersion`: one registry DEK lookup. -/
def callGetDek (st : St) (key : DekID) : Except GoError Dek × St :=
  (st.env.getDekResp st.nGetDek,
   { st with nGetDek := st.nGetDek + 1,
             trace := st.trace ++ [.getDek key.kekName key.subject key.version
               key.algorithm key.deleted] })

/-- `Client.RegisterDek` / `Client.RegisterDekVersion`: one registry DEK
registration, carrying the (base64 of the) wrapped key material, nil when
the KEK is shared. -/
def callRegisterDek (st : St) (key : DekID) (encryptedDek : Option Bytes) :
    Except GoError Dek × St :=
  (st.env.registerDekResp st.nRegDek,
   { st with nRegDek := st.nRegDek + 1,
             trace := st.trace ++ [.registerDek key.kekName key.subject key.version
               key.algorithm encryptedDek] })

/-- `retrieveKekFromRegistry`: a 404-class `rest.Error` resolves to
`(nil, nil)`; other errors are returned; success yields the KEK.  The Go
`(kek *deks.Kek, err error)` pair is kept as a pair, since the caller
inspects the two components independently. -/
def retrieveKekFromRegistry (st : St) (name : String) (deleted : Bool) :
    (Option Kek × Option GoError) × St :=
  let (r, st) := callGetKek st name deleted
  match r with
  | .ok k => ((some k, none), st)
  | .error e =>
    match e with
    | .rest code =>
      if statusHasPrefix code 404 then ((none, none), st) else ((none, some e), st)
    | .msg _ => ((none, some e), st)

/-- `storeKekToRegistry`: a 409-class `rest.Error` resolves to
`(nil, nil)`; other errors are returned; success yields the KEK. -/
def storeKekToRegistry (st : St) (name kmsType kmsKeyID : String) (shared : Bool) :
    (Option Kek × Option GoError) × St :=
  let (r, st) := callRegisterKek st name kmsType kmsKeyID shared
  match r with
  | .ok k => ((some k, none), st)
  | .error e =>
    match e with
    | .rest code =>
      if statusHasPrefix code 409 then ((none, none), st) else ((none, some e), st)
    | .msg _ => ((none, some e), st)

/-- The two trailing checks of `getOrCreateKek`: a KMS type or key ID that
the rule supplies non-empty must equal the resolved KEK's field. -/
def checkKekMatches (kekName : String) (kmsType kmsKeyID : Option String) (kek : Kek) :
    Except GoError Kek :=
  if kmsType.isSome ∧ kmsType.getD "" ≠ "" ∧ kmsType.getD "" ≠ kek.kmsType then
    .error (.msg ("found " ++ kekName ++ " with kms type " ++ kek.kmsType ++
      " which differs from rule kms type " ++ kmsType.getD ""))
  else if kmsKeyID.isSome ∧ kmsKeyID.getD "" ≠ "" ∧ kmsKeyID.getD "" ≠ kek.kmsKeyID then
    .error (.msg ("found " ++ kekName ++ " with kms key id " ++ kek.kmsKeyID ++
      " which differs from rule kms key id " ++ kmsKeyID.getD ""))
  else .ok kek

/-- `getOrCreateKek`: look the KEK up (soft-deleted visible in read mode);
if absent, fail in read mode, else require KMS type and key ID and attempt
registration; a failed registration (the source checks `kek == nil`, which
any failure produces, the 409 conflict included) is followed by one
recovery refetch whose error, if any, is surfaced; finally check that the
rule-supplied KMS type/key ID match the resolved KEK. -/
def getOrCreateKek (st : St) (mode : RuleMode) (kekName : String)
    (kmsType kmsKeyID : Option String) : Except GoError Kek × St :=
  let isRead := mode = RuleMode.Read
  let (r1, st) := retrieveKekFromRegistry st kekName isRead
  match r1.1 with
  | some kek => (checkKekMatches kekName kmsType kmsKeyID kek, st)
  | none =>
    if isRead then
      (.error (.msg ("no kek found for " ++ kekName ++ " during consume")), st)
    else if kmsType.getD "" = "" then
      (.error (.msg ("no kms type found for " ++ kekName ++ " during produce")), st)
    else if kmsKeyID.getD "" = "" then
      (.error (.msg ("no kms key id found for " ++ kekName ++ " during produce")), st)
    else
      let (r2, st) := storeKekToRegistry st kekName (kmsType.getD "") (kmsKeyID.getD "") false
      match r2.1 with
      | some kek => (checkKekMatches kekName kmsType kmsKeyID kek, st)
      | none =>
        let (r3, st) := retrieveKekFromRegistry st kekName isRead
        match r3.2 with
        | some e => (.error e, st)
        | none =>
          match r3.1 with
          | some kek => (checkKekMatches kekName kmsType kmsKeyID kek, st)
          | none =>
            (.error (.msg ("no kek found for " ++ kekName ++ " during produce")), st)

/-- `retrieveDekFromRegistry`: a 404-class `rest.Error` resolves to
`(nil, nil)`; other errors are returned; success yields the DEK.  (The
source picks `GetDekVersion` or `GetDek` by `key.Version != 0`; both are
one registry lookup here.) -/
def retrieveDekFromRegistry (st : St) (key : DekID) :
    (Option Dek × Option GoError) × St :=
  let (r, st) := callGetDek st key
  match r with
  | .ok d => ((some d, none), st)
  | .error e =>
    match e with
    | .rest code =>
      if statusHasPrefix code 404 then ((none, none), st) else ((none, some e), st)
    | .msg _ => ((none, some e), st)

/-- `storeDekToRegistry`: a 409-class `rest.Error` resolves to
`(nil, nil)`; other errors are returned; success yields the DEK. -/
def storeDekToRegistry (st : St) (key : DekID) (encryptedDek : Option Bytes) :
    (Option Dek × Option GoError) × St :=
  let (r, st) := callRegisterDek st key encryptedDek
  match r with
  | .ok d => ((some d, none), st)
  | .error e =>
    match e with
    | .rest code =>
      if statusHasPrefix code 409 then ((none, none), st) else ((none, some e), st)
    | .msg _ => ((none, some e), st)

/-- `createDek`: register the new version; if registration did not yield a
DEK (conflict or any other failure), refetch the original id once,
surfacing the refetch's error; a still-absent DEK is an error. -/
def createDek (st : St) (dekID : DekID) (newVersion : Int) (encryptedDek : Option Bytes) :
    Except GoError Dek × St :=
  let newDekID : DekID := { dekID with version := newVersion }
  let (r, st) := storeDekToRegistry st newDekID encryptedDek
  match r.1 with
  | some d => (.ok d, st)
  | none =>
    let (r2, st) := retrieveDekFromRegistry st dekID
    match r2.2 with
    | some e => (.error e, st)
    | none =>
      match r2.1 with
      | some d => (.ok d, st)
      | none =>
        (.error (.msg ("no dek found for " ++ dekID.kekName ++ " during produce")), st)

/-- Modelled from the spec: `getAead` — resolve the KMS driver and client
for the KEK's master-key URL and obtain its AEAD handle (the handle itself
is the environment's `kekEnc`/`kekDec`). -/
def getAead (st : St) (kek : Kek) : Except GoError Unit × St :=
  let st := { st with
    trace := st.trace ++ [.kmsGetAead (kek.kmsType ++ "://" ++ kek.kmsKeyID)] }
  (if st.env.kekAeadOk then .ok () else .error (.msg "kms client error"), st)

/-- `ExecutorTransform`: the per-invocation transform state after
`NewTransform` resolved the KEK. -/
structure ExecutorTransform where
  cryptor : Cryptor
  kekName : String
  kek : Kek
  dekExpiryDays : Int

/-- The key-generation phase of `getOrCreateDek`'s creation branch: when
the KEK is not shared, resolve its AEAD handle (`getAead`), generate new
raw key material from the key template (`registry.NewKeyData`, which fails
on a nil template since the key manager lookup of the empty type URL
fails), and wrap it with the KEK AEAD and empty associated data.  Returns
the wrapped material to register (`none` for a shared KEK) and whether the
AEAD handle (`primitive` in the source) is now non-nil. -/
def keygenPhase (st : St) (f : ExecutorTransform) :
    Except GoError (Option Bytes × Bool) × St :=
  if f.kek.shared then (.ok (none, false), st)
  else
    let (a, st) := getAead st f.kek
    match a with
    | .error e => (.error e, st)
    | .ok _ =>
      match f.cryptor.keyTemplate with
      | none => (.error (.msg "registry.NewKeyData: unsupported key type"), st)
      | some _ =>
        if st.env.newKeyOk then (.ok (some (st.env.kekEnc st.env.newKey), true), st)
        else (.error (.msg "registry.NewKeyData error"), st)

/-- The key-material resolution tail of `getOrCreateDek`
(`GetDekKeyMaterialBytes` and, when the decrypted cache is empty, a lazy
`getAead` if the handle is still nil, `GetDekEncryptedKeyMaterialBytes`,
an unwrap with empty associated data, and `SetDekKeyMaterial`). -/
def resolveDekMaterial (st : St) (kek : Kek) (primitiveSet : Bool) (dek : Dek) :
    Except GoError Dek × St :=
  match dek.keyMaterial with
  | some _ => (.ok dek, st)
  | none =>
    let (pr, st) := if primitiveSet then (Except.ok (), st) else getAead st kek
    match pr with
    | .error e => (.error e, st)
    | .ok _ =>
      match st.env.kekDec (dek.encryptedKeyMaterial.getD []) with
      | some rawDek => (.ok { dek with keyMaterial := some rawDek }, st)
      | none => (.error (.msg "kek aead decrypt error"), st)

/-- The creation branch of `getOrCreateDek` (entered when the DEK is
absent or expired, in write mode): key generation and wrapping, the new
version (prior version + 1 when rotating an expired DEK, else 1),
`createDek`, and the fallback to the usable prior DEK when creation failed
for any reason but a prior DEK exists. -/
def dekCreateBranch (st : St) (f : ExecutorTransform) (dekID : DekID)
    (dek0 : Option Dek) (expired : Bool) : Except GoError Dek × St :=
  match keygenPhase st f with
  | (.error e, st) => (.error e, st)
  | (.ok p, st) =>
    let newVersion : Int :=
      match dek0 with
      | some d => if expired then d.version + 1 else 1
      | none => 1
    let (r, st) := createDek st dekID newVersion p.1
    match r with
    | .error e =>
      match dek0 with
      | none => (.error e, st)
      | some d => resolveDekMaterial st f.kek p.2 d
    | .ok d => resolveDekMaterial st f.kek p.2 d

/-- `getOrCreateDek`: fetch the DEK for (kek name, subject, requested
version (default 1), algorithm); non-404 fetch errors are fatal; an absent
or expired DEK fails in read mode and is created in write mode; finally
resolve the raw key material. -/
def getOrCreateDek (st : St) (f : ExecutorTransform) (mode : RuleMode) (subject : String)
    (version : Option Int) (now : Int) : Except GoError Dek × St :=
  let isRead := mode = RuleMode.Read
  let ver : Int := match version with | some v => v | none => 1
  let dekID : DekID := { kekName := f.kekName, subject := subject, version := ver,
                         algorithm := f.cryptor.dekFormat, deleted := isRead }
  let (r1, st) := retrieveDekFromRegistry st dekID
  match r1.2 with
  | some e => (.error e, st)
  | none =>
    match r1.1 with
    | none =>
      if isRead then
        (.error (.msg ("no dek found for " ++ f.kekName ++ " during consumer")), st)
      else dekCreateBranch st f dekID none false
    | some d =>
      if isExpired mode f.dekExpiryDays now (some d) then
        if isRead then
          (.error (.msg ("no dek found for " ++ f.kekName ++ " during consumer")), st)
        else dekCreateBranch st f dekID (some d) true
      else resolveDekMaterial st f.kek false d

/-- Outcome of a `Cryptor.encrypt`/`Cryptor.decrypt` call: success, a tink
error, or the nil-pointer panic of reading `c.KeyTemplate.TypeUrl` when
the key template is nil. -/
inductive CryptOut where
  | ok (b : Bytes)
  | err
  | panics
deriving DecidableEq, Repr

/-- `Cryptor.encrypt`: dereference the key template's type URL (panics
when the template is nil), resolve the tink primitive from the key bytes,
and encrypt (deterministically for `AES256_SIV`, randomized AEAD
otherwise; both are the environment's determinized `aeadEnc`). -/
def Cryptor.encrypt (env : Env) (c : Cryptor) (dek data aad : Bytes) : CryptOut :=
  match c.keyTemplate with
  | none => .panics
  | some _ =>
    if env.primitiveOk dek then .ok (env.aeadEnc c.dekFormat dek data aad)
    else .err

/-- `Cryptor.decrypt`: as `Cryptor.encrypt`, but decrypting;
authentication failure is an error. -/
def Cryptor.decrypt (env : Env) (c : Cryptor) (dek data aad : Bytes) : CryptOut :=
  match c.keyTemplate with
  | none => .panics
  | some _ =>
    if env.primitiveOk dek then
      match env.aeadDec c.dekFormat dek data aad with
      | some p => .ok p
      | none => .err
    else .err

/-- Outcome of `ExecutorTransform.Transform`: the Go `(interface{}, error)`
pair (`ok none` is the nil-for-nil passthrough), or a runtime panic
reachable through `extractVersion` or a nil key template. -/
inductive TResult where
  | ok (v : Option FieldValue)
  | err (e : GoError)
  | panics
deriving DecidableEq, Repr

/-- `ExecutorTransform.Transform`: nil passes through; write mode converts
the field to bytes (unsupported types fail), obtains a DEK (requesting
version -1 when rotation is enabled), encrypts, frames the version when
rotation is enabled and base64-encodes string fields; read mode returns
unconvertible field values unchanged, base64-decodes string fields, parses
and strips the version frame when rotation is enabled, obtains the DEK of
that version and decrypts; other rule modes fail. -/
def ExecutorTransform.Transform (st : St) (f : ExecutorTransform) (mode : RuleMode)
    (subject : String) (fieldType : FieldType) (fieldValue : Option FieldValue)
    (now : Int) : TResult × St :=
  match fieldValue with
  | none => (.ok none, st)
  | some fv =>
    match mode with
    | .Write =>
      match toBytes fieldType fv with
      | none => (.err (.msg "type not supported for encryption"), st)
      | some plaintext =>
        let version : Option Int := if isDekRotated f.dekExpiryDays then some (-1) else none
        let (dres, st) := getOrCreateDek st f mode subject version now
        match dres with
        | .error e => (.err e, st)
        | .ok dek =>
          match Cryptor.encrypt st.env f.cryptor (dek.keyMaterial.getD []) plaintext [] with
          | .panics => (.panics, st)
          | .err => (.err (.msg "encrypt error"), st)
          | .ok ct =>
            let ciphertext :=
              if isDekRotated f.dekExpiryDays then prefixVersion dek.version ct else ct
            if fieldType = FieldType.TypeString then
              (.ok (some (.str (base64Encode ciphertext))), st)
            else (.ok (some (.bytes ciphertext)), st)
    | .Read =>
      match toBytes fieldType fv with
      | none => (.ok (some fv), st)
      | some ct0 =>
        let ct1 : Option Bytes :=
          if fieldType = FieldType.TypeString then base64Decode ct0 else some ct0
        match ct1 with
        | none => (.err (.msg "base64 decode error"), st)
        | some ct =>
          let step : Except Unit (Option Int × Bytes) :=
            if isDekRotated f.dekExpiryDays then
              match extractVersion ct with
              | .ok v => .ok (some (Int.ofNat v), ct.drop 5)
              | _ => .error ()
            else .ok (none, ct)
          match step with
          | .error _ =>
            match extractVersion ct with
            | .err => (.err (.msg "unknown magic byte"), st)
            | _ => (.panics, st)
          | .ok (version, ct) =>
            let (dres, st) := getOrCreateDek st f mode subject version now
            match dres with
            | .error e => (.err e, st)
            | .ok dek =>
              match Cryptor.decrypt st.env f.cryptor (dek.keyMaterial.getD []) ct [] with
              | .panics => (.panics, st)
              | .err => (.err (.msg "decrypt error"), st)
              | .ok plaintext => (.ok (toObject fieldType plaintext), st)
    | .Other => (.err (.msg "unsupported rule mode"), st)

/-- A concrete environment in which every registry lookup is a 404, every
registration a 409, and KMS/tink succeed with identity primitives; used to
evaluate code paths at concrete inputs. -/
def plainEnv : Env :=
  { getKekResp := fun _ => .error (.rest 404)
    registerKekResp := fun _ => .error (.rest 409)
    getDekResp := fun _ => .error (.rest 404)
    registerDekResp := fun _ => .error (.rest 409)
    kekAeadOk := true
    kekEnc := fun b => b
    kekDec := fun b => some b
    newKeyOk := true
    newKey := []
    primitiveOk := fun _ => true
    aeadEnc := fun _ _ p _ => p
    aeadDec := fun _ _ c _ => some c }

/-- C2: `isExpired` holds exactly when the mode is write (within the two
modes `Transform` passes to `getOrCreateDek`), the configured expiry days
are positive and `(now - Ts) / 86400000 ≥ expiryDays` in truncating
integer division; in read mode never; and at `expiryDays = 2` the boundary
lies exactly at `Ts + 2*86400000`. -/
theorem c2_isExpired_boundary (mode : RuleMode) (hmode : mode = RuleMode.Write ∨ mode = RuleMode.Read)
    (days now : Int) (d : Dek) :
    MillisInDay = 86400000 ∧
    (isExpired mode days now (some d) = true ↔
      mode = RuleMode.Write ∧ 0 < days ∧ days ≤ (now - d.ts).tdiv 86400000) ∧
    isExpired RuleMode.Read days now (some d) = false ∧
    isExpired RuleMode.Write 2 (d.ts + 2 * 86400000 - 1) (some d) = false ∧
    isExpired RuleMode.Write 2 (d.ts + 2 * 86400000) (some d) = true := by
  have hmid : MillisInDay = 86400000 := by decide
  have h1 : d.ts + 2 * 86400000 - 1 - d.ts = 172799999 := by ring
  have h2 : d.ts + 2 * 86400000 - d.ts = 172800000 := by ring
  have h3 : (172799999 : Int).tdiv 86400000 = 1 := by decide
  have h4 : (172800000 : Int).tdiv 86400000 = 2 := by decide
  refine ⟨hmid, ?_, ?_, ?_, ?_⟩
  · rcases hmode with h | h <;> subst h <;>
      simp [isExpired, hmid, and_assoc, ge_iff_le]
  · simp [isExpired]
  · simp only [isExpired, hmid, h1, h3]
    decide
  · simp only [isExpired, hmid, h2, h4]
    decide

/-- C2 witness: concrete evaluation at the two boundary instants. -/
theorem c2_isExpired_boundary_witness :
    isExpired RuleMode.Write 2 (100 + 2 * 86400000 - 1) (some ⟨1, 100, none, none⟩) = false ∧
    isExpired RuleMode.Write 2 (100 + 2 * 86400000) (some ⟨1, 100, none, none⟩) = true := by
  have h := c2_isExpired_boundary RuleMode.Write (Or.inl rfl) 2 (100 + 2 * 86400000)
    ⟨1, 100, none, none⟩
  exact ⟨h.2.2.2.1, h.2.2.2.2⟩

/-- C9: a nil field value passes through as nil with no error, in every
rule mode (write and read included), with the call state untouched (no
registry or KMS call, and nothing else is reached). -/
theorem c9_nil_field_passthrough (st : St) (f : ExecutorTransform) (mode : RuleMode)
    (subject : String) (fieldType : FieldType) (now : Int) :
    ExecutorTransform.Transform st f mode subject fieldType none now = (.ok none, st) := rfl

/-- C10: a field value of a type that is neither bytes nor string is
returned unchanged with no error on the read path (no call is made, the
state is untouched), while the write path fails with the unsupported-type
error. -/
theorem c10_other_field_type (st : St) (f : ExecutorTransform) (subject : String)
    (fv : FieldValue) (now : Int) :
    ExecutorTransform.Transform st f RuleMode.Read subject FieldType.TypeOther (some fv) now
      = (.ok (some fv), st) ∧
    ExecutorTransform.Transform st f RuleMode.Write subject FieldType.TypeOther (some fv) now
      = (.err (.msg "type not supported for encryption"), st) := by
  cases fv <;> exact ⟨rfl, rfl⟩

/-- C6 counterexample: for the unsupported algorithm identifier "FOO" the
cryptor's key template is nil, but `encrypt` and `decrypt` then panic
(dereferencing the nil template to read its type URL) instead of returning
an error as the claim states. -/
theorem c6_counterexample :
    (getCryptor (some "FOO")).keyTemplate = none ∧
    Cryptor.encrypt plainEnv (getCryptor (some "FOO")) [1] [2] [] = CryptOut.panics ∧
    Cryptor.decrypt plainEnv (getCryptor (some "FOO")) [1] [2] [] = CryptOut.panics := by
  refine ⟨?_, ?_, ?_⟩ <;> rfl

/-- C6 amended: every unsupported algorithm identifier yields a cryptor
with a nil key template, and any subsequent `encrypt`/`decrypt` with that
cryptor fails fast by a nil-pointer panic (a crash, not a returned error),
before any cryptographic processing. -/
theorem c6_unsupported_algorithm_panics (alg : String)
    (h1 : alg ≠ Aes128Gcm) (h2 : alg ≠ Aes256Gcm) (h3 : alg ≠ Aes256Siv)
    (env : Env) (dek data aad : Bytes) :
    (getCryptor (some alg)).keyTemplate = none ∧
    Cryptor.encrypt env (getCryptor (some alg)) dek data aad = CryptOut.panics ∧
    Cryptor.decrypt env (getCryptor (some alg)) dek data aad = CryptOut.panics := by
  have ht : (getCryptor (some alg)).keyTemplate = none := by
    simp [getCryptor, h1, h2, h3]
  refine ⟨ht, ?_, ?_⟩ <;> simp [Cryptor.encrypt, Cryptor.decrypt, ht]

/-- C6 witness: the amended theorem applied at the identifier "FOO". -/
theorem c6_unsupported_algorithm_panics_witness :
    (getCryptor (some "FOO")).keyTemplate = none ∧
    Cryptor.encrypt plainEnv (getCryptor (some "FOO")) [] [] [] = CryptOut.panics ∧
    Cryptor.decrypt plainEnv (getCryptor (some "FOO")) [] [] [] = CryptOut.panics :=
  c6_unsupported_algorithm_panics "FOO" (by decide) (by decide) (by decide) plainEnv [] [] []

/-- C4 counterexample: the empty ciphertext (and any input of fewer than 5
bytes whose first byte is the marker) makes `extractVersion` panic with an
out-of-range index instead of failing with an error as the claim states. -/
theorem c4_counterexample :
    extractVersion [] = ExtractResult.panics ∧
    extractVersion [0, 0, 0, 1] = ExtractResult.panics := by
  exact ⟨rfl, rfl⟩

/-- Helper: a rule-supplied KMS type or key ID that is non-empty and
differs from the resolved KEK's field makes the trailing checks of
`getOrCreateKek` fail. -/
lemma checkKekMatches_mismatch (kekName t kid : String) (kek : Kek)
    (hmis : (t ≠ "" ∧ t ≠ kek.kmsType) ∨ (kid ≠ "" ∧ kid ≠ kek.kmsKeyID)) :
    ∃ m, checkKekMatches kekName (some t) (some kid) kek = .error (.msg m) := by
  unfold checkKekMatches
  split
  · exact ⟨_, rfl⟩
  · rename_i hc1
    split
    · exact ⟨_, rfl⟩
    · rename_i hc2
      exfalso
      rcases hmis with ⟨ha, hb⟩ | ⟨ha, hb⟩
      · exact hc1 ⟨by simp, by simpa using ha, by simpa using hb⟩
      · exact hc2 ⟨by simp, by simpa using ha, by simpa using hb⟩

/-- C8: when the registry resolves the KEK and the rule supplies a
non-empty KMS type or key ID differing from the KEK's, `getOrCreateKek`
fails — and its whole call trace is the single KEK lookup: no KMS client
is resolved and nothing is registered.  Stated for both rule modes. -/
theorem c8_kek_kms_mismatch_fails (env : Env) (kekName t kid : String) (kek : Kek)
    (hresp : env.getKekResp 0 = .ok kek)
    (hmis : (t ≠ "" ∧ t ≠ kek.kmsType) ∨ (kid ≠ "" ∧ kid ≠ kek.kmsKeyID)) :
    ((∃ m, (getOrCreateKek (St.init env) RuleMode.Write kekName (some t) (some kid)).1
        = .error (.msg m)) ∧
      (getOrCreateKek (St.init env) RuleMode.Write kekName (some t) (some kid)).2.trace
        = [.getKek kekName false]) ∧
    ((∃ m, (getOrCreateKek (St.init env) RuleMode.Read kekName (some t) (some kid)).1
        = .error (.msg m)) ∧
      (getOrCreateKek (St.init env) RuleMode.Read kekName (some t) (some kid)).2.trace
        = [.getKek kekName true]) := by
  obtain ⟨m, hm⟩ := checkKekMatches_mismatch kekName t kid kek hmis
  refine ⟨⟨⟨m, ?_⟩, ?_⟩, ⟨⟨m, ?_⟩, ?_⟩⟩ <;>
    simp [getOrCreateKek, retrieveKekFromRegistry, callGetKek, St.init, hresp, hm]

/-- C8 witness: a KEK registered with KMS type "aws-kms" rejected when the
rule supplies KMS type "gcp-kms". -/
theorem c8_kek_kms_mismatch_fails_witness :
    ((∃ m, (getOrCreateKek (St.init { plainEnv with
        getKekResp := fun _ => .ok ⟨"kek1", "aws-kms", "id1", false⟩ })
        RuleMode.Write "kek1" (some "gcp-kms") (some "id1")).1 = .error (.msg m)) ∧
      (getOrCreateKek (St.init { plainEnv with
        getKekResp := fun _ => .ok ⟨"kek1", "aws-kms", "id1", false⟩ })
        RuleMode.Write "kek1" (some "gcp-kms") (some "id1")).2.trace
        = [.getKek "kek1" false]) ∧
    ((∃ m, (getOrCreateKek (St.init { plainEnv with
        getKekResp := fun _ => .ok ⟨"kek1", "aws-kms", "id1", false⟩ })
        RuleMode.Read "kek1" (some "gcp-kms") (some "id1")).1 = .error (.msg m)) ∧
      (getOrCreateKek (St.init { plainEnv with
        getKekResp := fun _ => .ok ⟨"kek1", "aws-kms", "id1", false⟩ })
        RuleMode.Read "kek1" (some "gcp-kms") (some "id1")).2.trace
        = [.getKek "kek1" true]) :=
  c8_kek_kms_mismatch_fails _ "kek1" "gcp-kms" "id1" ⟨"kek1", "aws-kms", "id1", false⟩
    rfl (Or.inl ⟨by decide, by decide⟩)

/-- C7: in read mode a 404-class registry answer makes `getOrCreateKek`
and `getOrCreateDek` fail, and each one's whole call trace is its single
lookup — no registration call is ever issued and no KMS client resolved. -/
theorem c7_read_absent_never_creates (env : Env) (f : ExecutorTransform)
    (kekName subject : String) (kmsType kmsKeyID : Option String)
    (version : Option Int) (now : Int) (c c' : Int)
    (hc : statusHasPrefix c 404 = true)
    (hresp : env.getKekResp 0 = .error (.rest c))
    (hc' : statusHasPrefix c' 404 = true)
    (hresp' : env.getDekResp 0 = .error (.rest c')) :
    (getOrCreateKek (St.init env) RuleMode.Read kekName kmsType kmsKeyID).1 =
      .error (.msg ("no kek found for " ++ kekName ++ " during consume")) ∧
    (getOrCreateKek (St.init env) RuleMode.Read kekName kmsType kmsKeyID).2.trace =
      [.getKek kekName true] ∧
    (getOrCreateDek (St.init env) f RuleMode.Read subject version now).1 =
      .error (.msg ("no dek found for " ++ f.kekName ++ " during consumer")) ∧
    (getOrCreateDek (St.init env) f RuleMode.Read subject version now).2.trace =
      [.getDek f.kekName subject (version.getD 1) f.cryptor.dekFormat true] := by
  refine ⟨?_, ?_, ?_, ?_⟩ <;>
    cases version <;>
      simp [getOrCreateKek, getOrCreateDek, retrieveKekFromRegistry,
        retrieveDekFromRegistry, callGetKek, callGetDek, St.init, hresp, hresp', hc, hc']

/-- C7 witness: concrete 404 responses in read mode. -/
theorem c7_read_absent_never_creates_witness :
    (getOrCreateKek (St.init plainEnv) RuleMode.Read "kek1" (some "fake") (some "id1")).1 =
      .error (.msg ("no kek found for " ++ "kek1" ++ " during consume")) ∧
    (getOrCreateKek (St.init plainEnv) RuleMode.Read "kek1" (some "fake") (some "id1")).2.trace =
      [.getKek "kek1" true] ∧
    (getOrCreateDek (St.init plainEnv)
      ⟨getCryptor none, "kek1", ⟨"kek1", "fake", "id1", false⟩, 0⟩
      RuleMode.Read "sub" none 0).1 =
      .error (.msg ("no dek found for " ++ "kek1" ++ " during consumer")) ∧
    (getOrCreateDek (St.init plainEnv)
      ⟨getCryptor none, "kek1", ⟨"kek1", "fake", "id1", false⟩, 0⟩
      RuleMode.Read "sub" none 0).2.trace =
      [.getDek "kek1" "sub" ((none : Option Int).getD 1)
        (getCryptor none).dekFormat true] :=
  c7_read_absent_never_creates plainEnv
    ⟨getCryptor none, "kek1", ⟨"kek1", "fake", "id1", false⟩, 0⟩
    "kek1" "sub" (some "fake") (some "id1") none 0 404 404
    (by decide) rfl (by decide) rfl

/-- The KEK used by the C3 scenario. -/
def kek1 : Kek := ⟨"kek1", "fake", "id1", false⟩

/-- The C3 environment: the initial KEK lookup 404s, the registration
fails with a registry 500 (not a conflict), the recovery refetch finds the
KEK another writer registered. -/
def c3Env : Env := { plainEnv with
  getKekResp := fun n => if n = 0 then .error (.rest 404) else .ok kek1
  registerKekResp := fun _ => .error (.rest 500) }

/-- C3 counterexample: a KEK registration failing with a registry 500 is
not surfaced to the caller — the source checks `kek == nil` (true for any
failure, not only 409 conflicts), refetches, and here returns the
refetched KEK successfully; the whole trace shows the recovery refetch
happened after the 500. -/
theorem c3_counterexample :
    (getOrCreateKek (St.init c3Env) RuleMode.Write "kek1" (some "fake") (some "id1")).1
      = .ok kek1 ∧
    (getOrCreateKek (St.init c3Env) RuleMode.Write "kek1" (some "fake") (some "id1")).2.trace
      = [.getKek "kek1" false, .registerKek "kek1" "fake" "id1" false,
         .getKek "kek1" false] := by
  exact ⟨rfl, rfl⟩

/-- C3 amended: in write mode with the KEK absent, any KEK-registration
failure — a 409 conflict or any other error, a registry 5xx included —
triggers the single recovery refetch, and the caller receives the
refetch's outcome; the original registration error is not surfaced. -/
theorem c3_any_store_failure_refetches (env : Env) (kekName t kid : String)
    (e : GoError) (kek : Kek)
    (ht : t ≠ "") (hkid : kid ≠ "")
    (h0 : env.getKekResp 0 = .error (.rest 404))
    (hreg : env.registerKekResp 0 = .error e)
    (h1 : env.getKekResp 1 = .ok kek)
    (hkt : kek.kmsType = t) (hki : kek.kmsKeyID = kid) :
    (getOrCreateKek (St.init env) RuleMode.Write kekName (some t) (some kid)).1 = .ok kek ∧
    (getOrCreateKek (St.init env) RuleMode.Write kekName (some t) (some kid)).2.trace =
      [.getKek kekName false, .registerKek kekName t kid false, .getKek kekName false] := by
  have hpre : statusHasPrefix 404 404 = true := by decide
  cases e with
  | rest code =>
    by_cases h409 : statusHasPrefix code 409 = true
    · constructor <;>
        simp [getOrCreateKek, retrieveKekFromRegistry, storeKekToRegistry, callGetKek,
          callRegisterKek, St.init, h0, hreg, h1, hpre, h409, ht, hkid, checkKekMatches,
          hkt, hki]
    · rw [Bool.not_eq_true] at h409
      constructor <;>
        simp [getOrCreateKek, retrieveKekFromRegistry, storeKekToRegistry, callGetKek,
          callRegisterKek, St.init, h0, hreg, h1, hpre, h409, ht, hkid, checkKekMatches,
          hkt, hki]
  | msg s =>
    constructor <;>
      simp [getOrCreateKek, retrieveKekFromRegistry, storeKekToRegistry, callGetKek,
        callRegisterKek, St.init, h0, hreg, h1, hpre, ht, hkid, checkKekMatches, hkt, hki]

/-- C3 amended witness: the 500-failure scenario of the counterexample,
through the amended theorem. -/
theorem c3_any_store_failure_refetches_witness :
    (getOrCreateKek (St.init c3Env) RuleMode.Write "kek2" (some "fake") (some "id1")).1
      = .ok kek1 ∧
    (getOrCreateKek (St.init c3Env) RuleMode.Write "kek2" (some "fake") (some "id1")).2.trace
      = [.getKek "kek2" false, .registerKek "kek2" "fake" "id1" false,
         .getKek "kek2" false] :=
  c3_any_store_failure_refetches c3Env "kek2" "fake" "id1" (.rest 500) kek1
    (by decide) (by decide) rfl rfl rfl rfl rfl

/-- Field value construction for a supported field type. -/
def mkFieldValue : FieldType → Bytes → FieldValue
  | .TypeBytes, b => .bytes b
  | .TypeString, b => .str b
  | .TypeOther, _ => .other

/-- The transform configuration of the end-to-end scenario: KEK "kek1"
(unshared, KMS type "fake", key ID "id1"), the given algorithm, the given
expiry days. -/
def rtXf (alg : String) (days : Int) : ExecutorTransform :=
  ⟨getCryptor (some alg), "kek1", kek1, days⟩

/-- The registry record of the scenario DEK: version 1, timestamp `ts`,
no decrypted material yet, encrypted material = the KEK-wrapped raw key. -/
def rtDek (kekEnc : Bytes → Bytes) (kRaw : Bytes) (ts : Int) : Dek :=
  ⟨1, ts, none, some (kekEnc kRaw)⟩

/-- Modelled from the spec: the registry/KMS/tink environment of the
round-trip scenario, parameterized by the abstract primitives and by the
DEK-lookup answer (absent on the write side; on the read side the record
the write registered, as a consistent registry returns it); DEK
registration returns the version-1 record wrapping the generated key. -/
def rtEnv (aeadEnc : String → Bytes → Bytes → Bytes → Bytes)
    (aeadDec : String → Bytes → Bytes → Bytes → Option Bytes)
    (kekEnc : Bytes → Bytes) (kekDec : Bytes → Option Bytes)
    (kRaw : Bytes) (ts : Int) (getDek : Except GoError Dek) : Env :=
  { getKekResp := fun _ => .ok kek1
    registerKekResp := fun _ => .error (.rest 409)
    getDekResp := fun _ => getDek
    registerDekResp := fun _ => .ok (rtDek kekEnc kRaw ts)
    kekAeadOk := true
    kekEnc := kekEnc
    kekDec := kekDec
    newKeyOk := true
    newKey := kRaw
    primitiveOk := fun _ => true
    aeadEnc := aeadEnc
    aeadDec := aeadDec }

/-- C1: for every supported algorithm, every rotation setting (any expiry
days, zero and positive included) and both field types, a write transform
followed by a read transform under the same configuration — against a
registry whose read-side DEK lookup returns the record the write-side
registration stored, KEK AEAD unwrap inverting the wrap, and the tink
primitive's decrypt inverting its encrypt (with ciphertexts that are
genuine byte sequences) — returns the original field value. -/
theorem c1_write_read_roundtrip (alg : String)
    (halg : alg = Aes128Gcm ∨ alg = Aes256Gcm ∨ alg = Aes256Siv)
    (days : Int) (fieldType : FieldType)
    (hft : fieldType = FieldType.TypeBytes ∨ fieldType = FieldType.TypeString)
    (plain kRaw : Bytes) (ts now : Int)
    (aeadEnc : String → Bytes → Bytes → Bytes → Bytes)
    (aeadDec : String → Bytes → Bytes → Bytes → Option Bytes)
    (kekEnc : Bytes → Bytes) (kekDec : Bytes → Option Bytes)
    (hdec : aeadDec alg kRaw (aeadEnc alg kRaw plain []) [] = some plain)
    (hkek : kekDec (kekEnc kRaw) = some kRaw)
    (hbytes : ∀ x ∈ aeadEnc alg kRaw plain [], x < 256) :
    ∃ out : FieldValue,
      (ExecutorTransform.Transform
          (St.init (rtEnv aeadEnc aeadDec kekEnc kekDec kRaw ts (.error (.rest 404))))
          (rtXf alg days) RuleMode.Write "subj" fieldType
          (some (mkFieldValue fieldType plain)) now).1 = .ok (some out) ∧
      (ExecutorTransform.Transform
          (St.init (rtEnv aeadEnc aeadDec kekEnc kekDec kRaw ts
            (.ok (rtDek kekEnc kRaw ts))))
          (rtXf alg days) RuleMode.Read "subj" fieldType (some out) now).1
        = .ok (some (mkFieldValue fieldType plain)) := by
  have hp404 : statusHasPrefix 404 404 = true := by decide
  obtain ⟨kt, hkt⟩ : ∃ kt, (getCryptor (some alg)).keyTemplate = some kt := by
    rcases halg with h | h | h <;> subst h <;> exact ⟨_, rfl⟩
  have hdf : (getCryptor (some alg)).dekFormat = alg := by simp [getCryptor]
  set ct := aeadEnc alg kRaw plain [] with hct
  have hpv : prefixVersion 1 ct = 0 :: 0 :: 0 :: 0 :: 1 :: ct := by
    have h1 : ((1 : Int) % 2 ^ 32).toNat = 1 := by decide
    simp [prefixVersion, putUint32BE, magicByteV0, h1]
  have hfb : ∀ x ∈ (0 :: 0 :: 0 :: 0 :: 1 :: ct), x < 256 := by
    intro x hx
    rcases List.mem_cons.1 hx with rfl | hx; · omega
    rcases List.mem_cons.1 hx with rfl | hx; · omega
    rcases List.mem_cons.1 hx with rfl | hx; · omega
    rcases List.mem_cons.1 hx with rfl | hx; · omega
    rcases List.mem_cons.1 hx with rfl | hx; · omega
    exact hbytes x hx
  by_cases hrot : isDekRotated days = true
  · rcases hft with h | h <;> subst h
    · refine ⟨.bytes (prefixVersion 1 ct), ?_, ?_⟩
      · simp [ExecutorTransform.Transform, mkFieldValue, toBytes, getOrCreateDek,
          retrieveDekFromRegistry, callGetDek, dekCreateBranch, keygenPhase, getAead,
          createDek, storeDekToRegistry, callRegisterDek, resolveDekMaterial, rtEnv, rtXf,
          rtDek, kek1, St.init, isExpired, Cryptor.encrypt, hkt, hdf, hkek, hrot, hp404]
      · simp [ExecutorTransform.Transform, mkFieldValue, toBytes, toObject, getOrCreateDek,
          retrieveDekFromRegistry, callGetDek, resolveDekMaterial, getAead, rtEnv, rtXf,
          rtDek, kek1, St.init, isExpired, Cryptor.decrypt, extractVersion, uint32BE,
          magicByteV0, hpv, hkt, hdf, hkek, hdec, hrot]
    · refine ⟨.str (base64Encode (prefixVersion 1 ct)), ?_, ?_⟩
      · simp [ExecutorTransform.Transform, mkFieldValue, toBytes, getOrCreateDek,
          retrieveDekFromRegistry, callGetDek, dekCreateBranch, keygenPhase, getAead,
          createDek, storeDekToRegistry, callRegisterDek, resolveDekMaterial, rtEnv, rtXf,
          rtDek, kek1, St.init, isExpired, Cryptor.encrypt, hkt, hdf, hkek, hrot, hp404]
      · have hb64 : base64Decode (base64Encode (0 :: 0 :: 0 :: 0 :: 1 :: ct)) =
            some (0 :: 0 :: 0 :: 0 :: 1 :: ct) :=
          base64Decode_base64Encode _ hfb
        simp [ExecutorTransform.Transform, mkFieldValue, toBytes, toObject, getOrCreateDek,
          retrieveDekFromRegistry, callGetDek, resolveDekMaterial, getAead, rtEnv, rtXf,
          rtDek, kek1, St.init, isExpired, Cryptor.decrypt, extractVersion, uint32BE,
          magicByteV0, hb64, hpv, hkt, hdf, hkek, hdec, hrot]
  · rw [Bool.not_eq_true] at hrot
    rcases hft with h | h <;> subst h
    · refine ⟨.bytes ct, ?_, ?_⟩
      · simp [ExecutorTransform.Transform, mkFieldValue, toBytes, getOrCreateDek,
          retrieveDekFromRegistry, callGetDek, dekCreateBranch, keygenPhase, getAead,
          createDek, storeDekToRegistry, callRegisterDek, resolveDekMaterial, rtEnv, rtXf,
          rtDek, kek1, St.init, isExpired, Cryptor.encrypt, hkt, hdf, hkek, hrot, hp404]
      · simp [ExecutorTransform.Transform, mkFieldValue, toBytes, toObject, getOrCreateDek,
          retrieveDekFromRegistry, callGetDek, resolveDekMaterial, getAead, rtEnv, rtXf,
          rtDek, kek1, St.init, isExpired, Cryptor.decrypt, hkt, hdf, hkek, hdec, hrot]
    · refine ⟨.str (base64Encode ct), ?_, ?_⟩
      · simp [ExecutorTransform.Transform, mkFieldValue, toBytes, getOrCreateDek,
          retrieveDekFromRegistry, callGetDek, dekCreateBranch, keygenPhase, getAead,
          createDek, storeDekToRegistry, callRegisterDek, resolveDekMaterial, rtEnv, rtXf,
          rtDek, kek1, St.init, isExpired, Cryptor.encrypt, hkt, hdf, hkek, hrot, hp404]
      · have hb64 : base64Decode (base64Encode ct) = some ct :=
          base64Decode_base64Encode _ hbytes
        simp [ExecutorTransform.Transform, mkFieldValue, toBytes, toObject, getOrCreateDek,
          retrieveDekFromRegistry, callGetDek, resolveDekMaterial, getAead, rtEnv, rtXf,
          rtDek, kek1, St.init, isExpired, Cryptor.decrypt, hb64, hkt, hdf, hkek, hdec, hrot]

/-- C1 witness: the round trip at the default algorithm, positive expiry
days, string field "hello", with identity primitives standing in for the
external AEAD and KMS wrap. -/
theorem c1_write_read_roundtrip_witness :
    ∃ out : FieldValue,
      (ExecutorTransform.Transform
          (St.init (rtEnv (fun _ _ p _ => p) (fun _ _ c _ => some c) (fun b => b)
            (fun b => some b) [7, 7] 5 (.error (.rest 404))))
          (rtXf "AES256_GCM" 2) RuleMode.Write "subj" FieldType.TypeString
          (some (mkFieldValue FieldType.TypeString [104, 101, 108, 108, 111])) 9).1
        = .ok (some out) ∧
      (ExecutorTransform.Transform
          (St.init (rtEnv (fun _ _ p _ => p) (fun _ _ c _ => some c) (fun b => b)
            (fun b => some b) [7, 7] 5 (.ok (rtDek (fun b => b) [7, 7] 5))))
          (rtXf "AES256_GCM" 2) RuleMode.Read "subj" FieldType.TypeString (some out) 9).1
        = .ok (some (mkFieldValue FieldType.TypeString [104, 101, 108, 108, 111])) :=
  c1_write_read_roundtrip "AES256_GCM" (Or.inr (Or.inl rfl)) 2 FieldType.TypeString
    (Or.inr rfl) [104, 101, 108, 108, 111] [7, 7] 5 9
    (fun _ _ p _ => p) (fun _ _ c _ => some c) (fun b => b) (fun b => some b)
    rfl rfl (by decide)

/-- C5: with rotation enabled the framed bytes are exactly one marker
byte, the 4 big-endian bytes of the version and the raw ciphertext;
extracting the version from the framed bytes yields exactly `v`, and
dropping the first 5 bytes recovers exactly the ciphertext.  With rotation
disabled the write path adds no framing header: the produced bytes are the
cryptor's raw output for the DEK obtained. -/
theorem c5_version_frame_exact (v : Nat) (hv : v < 2 ^ 32) (c : Bytes) :
    prefixVersion ((v : Int)) c =
      magicByteV0 :: v / 2 ^ 24 % 256 :: v / 2 ^ 16 % 256 :: v / 2 ^ 8 % 256 :: v % 256 :: c ∧
    (∀ x ∈ putUint32BE v, x < 256) ∧
    extractVersion (prefixVersion ((v : Int)) c) = ExtractResult.ok v ∧
    (prefixVersion ((v : Int)) c).drop 5 = c ∧
    (∀ (st : St) (f : ExecutorTransform) (subject : String) (plain out : Bytes) (now : Int),
      isDekRotated f.dekExpiryDays = false →
      (ExecutorTransform.Transform st f RuleMode.Write subject FieldType.TypeBytes
          (some (.bytes plain)) now).1 = .ok (some (.bytes out)) →
      ∃ dek st2, getOrCreateDek st f RuleMode.Write subject none now = (.ok dek, st2) ∧
        Cryptor.encrypt st2.env f.cryptor (dek.keyMaterial.getD []) plain [] = .ok out) := by
  have hmod : (((v : Int)) % 2 ^ 32).toNat = v := by omega
  refine ⟨?_, ?_, ?_, ?_, ?_⟩
  · simp [prefixVersion, putUint32BE]
    omega
  · intro x hx
    simp [putUint32BE] at hx
    rcases hx with rfl | rfl | rfl | rfl <;> omega
  · have h24 : v / 2 ^ 24 % 256 = v / 2 ^ 24 := Nat.mod_eq_of_lt (by omega)
    simp [prefixVersion, putUint32BE, extractVersion, magicByteV0, uint32BE, hmod]
    omega
  · simp [prefixVersion, putUint32BE]
  · intro st f subject plain out now hrot hout
    simp only [ExecutorTransform.Transform, toBytes, hrot, Bool.false_eq_true, if_false]
      at hout
    rcases hgd : getOrCreateDek st f RuleMode.Write subject none now with ⟨dres, st2⟩
    cases dres with
    | error e => rw [hgd] at hout; simp at hout
    | ok dek =>
      rcases henc : Cryptor.encrypt st2.env f.cryptor (dek.keyMaterial.getD []) plain []
        with ct | _ | _ <;> simp only [hgd, henc] at hout
      · simp at hout
        exact ⟨dek, st2, rfl, by simp [henc, hout]⟩
      · simp at hout
      · simp at hout

/-- C5 witness: concrete framing at version 258. -/
theorem c5_version_frame_exact_witness :
    prefixVersion ((258 : Int)) [9, 8] =
      magicByteV0 :: 258 / 2 ^ 24 % 256 :: 258 / 2 ^ 16 % 256 :: 258 / 2 ^ 8 % 256 ::
        258 % 256 :: [9, 8] ∧
    (∀ x ∈ putUint32BE 258, x < 256) ∧
    extractVersion (prefixVersion ((258 : Int)) [9, 8]) = ExtractResult.ok 258 ∧
    (prefixVersion ((258 : Int)) [9, 8]).drop 5 = [9, 8] ∧
    (∀ (st : St) (f : ExecutorTransform) (subject : String) (plain out : Bytes) (now : Int),
      isDekRotated f.dekExpiryDays = false →
      (ExecutorTransform.Transform st f RuleMode.Write subject FieldType.TypeBytes
          (some (.bytes plain)) now).1 = .ok (some (.bytes out)) →
      ∃ dek st2, getOrCreateDek st f RuleMode.Write subject none now = (.ok dek, st2) ∧
        Cryptor.encrypt st2.env f.cryptor (dek.keyMaterial.getD []) plain [] = .ok out) :=
  c5_version_frame_exact 258 (by decide) [9, 8]

/-- C4 amended (as the counterexample forces): on the read path with
rotation enabled, an input whose first byte is present and differs from
the format marker fails with the "unknown magic byte" error; an input of
at least 5 bytes starting with the marker parses successfully; but an
input shorter than 5 bytes that is empty or starts with the marker byte
makes the version-frame parsing panic with an out-of-range index — a
crash, not a returned error. -/
theorem c4_frame_parse_outcomes (b : Nat) (rest ct : Bytes) (st : St)
    (f : ExecutorTransform) (subject : String) (now : Int)
    (hb : b ≠ magicByteV0) (hrot : isDekRotated f.dekExpiryDays = true)
    (hshort : ct.length < 5) (hct : ct = [] ∨ ct.head? = some magicByteV0) :
    extractVersion (b :: rest) = ExtractResult.err ∧
    (4 ≤ rest.length → ∃ v, extractVersion (magicByteV0 :: rest) = ExtractResult.ok v) ∧
    extractVersion ct = ExtractResult.panics ∧
    ExecutorTransform.Transform st f RuleMode.Read subject FieldType.TypeBytes
      (some (.bytes (b :: rest))) now = (.err (.msg "unknown magic byte"), st) ∧
    ExecutorTransform.Transform st f RuleMode.Read subject FieldType.TypeBytes
      (some (.bytes [])) now = (.panics, st) := by
  have hx : extractVersion (b :: rest) = ExtractResult.err := by
    simp [extractVersion, hb]
  refine ⟨hx, ?_, ?_, ?_, ?_⟩
  · intro hlen
    rcases rest with _ | ⟨b1, _ | ⟨b2, _ | ⟨b3, _ | ⟨b4, tl⟩⟩⟩⟩
    · simp at hlen
    · simp at hlen
    · simp at hlen
    · simp at hlen
    · exact ⟨uint32BE b1 b2 b3 b4, by simp [extractVersion]⟩
  · rcases hct with rfl | hhead
    · rfl
    · rcases ct with _ | ⟨h0, tail⟩
      · rfl
      · simp at hhead
        subst hhead
        rcases tail with _ | ⟨b1, _ | ⟨b2, _ | ⟨b3, _ | ⟨b4, tl⟩⟩⟩⟩ <;>
          simp [extractVersion, magicByteV0] at hshort ⊢ <;> omega
  · simp [ExecutorTransform.Transform, toBytes, hrot, hx]
  · simp [ExecutorTransform.Transform, toBytes, hrot, extractVersion]

/-- C4 witness: a wrong first byte errors, the empty input panics. -/
theorem c4_frame_parse_outcomes_witness :
    extractVersion [1] = ExtractResult.err ∧
    (4 ≤ ([] : Bytes).length → ∃ v, extractVersion (magicByteV0 :: []) = ExtractResult.ok v) ∧
    extractVersion [] = ExtractResult.panics ∧
    ExecutorTransform.Transform (St.init plainEnv) (rtXf "AES256_GCM" 1) RuleMode.Read
      "subj" FieldType.TypeBytes (some (.bytes [1])) 0
      = (.err (.msg "unknown magic byte"), St.init plainEnv) ∧
    ExecutorTransform.Transform (St.init plainEnv) (rtXf "AES256_GCM" 1) RuleMode.Read
      "subj" FieldType.TypeBytes (some (.bytes [])) 0
      = (.panics, St.init plainEnv) :=
  c4_frame_parse_outcomes 1 [] [] (St.init plainEnv) (rtXf "AES256_GCM" 1) "subj" 0
    (by decide) (by decide) (by decide) (Or.inl rfl)

end Encryption
